import Mathlib

/-!
Verification development for the Homigo geocoding subsystem.

Shallow embedding of:
- `GeocodingService` (server-side wrapper over the Geoapify HTTP API:
  `geocodeAddress`, `reverseGeocode`, `getAutocompleteSuggestions`),
- the `getAddressSuggestions` HTTP endpoint in `controllers/listings.js`,
- the client-side `AddressAutocomplete` session (`fetchSuggestions`,
  `selectSuggestion`, `updateRelatedFields`) in `controllers/listings.js`,
- the client-side `ListingMap` pin placement (`onMapClick`, `reverseGeocode`)
  and the listing create/update geocoding integration.

JavaScript numbers are modelled as `Rat` (the code performs no float-specific
arithmetic on the modelled paths); `undefined`/`null` string-valued fields are
modelled as `Option String`; values that may be absent or of the wrong runtime
type are modelled by dedicated argument types (`JsStrArg`, `JsNumArg`).
Functions that can raise a JavaScript exception return `Except JsError _`.
-/

/-- JavaScript `a || b` for an optional string `a`: returns `a`s value when it
is present and truthy (non-empty), otherwise `b`. -/
def jsOr (a : Option String) (b : String) : String :=
  match a with
  | some s => if s = "" then b else s
  | none => b

/-- JavaScript `a || b || ""` chain used for `result.city || result.county || ""`. -/
def jsOrChain (a b : Option String) : String :=
  jsOr a (jsOr b "")

/-- Template interpolation of a value that may be `null`: JavaScript renders
`null` as the string `null`. -/
def jsShowOpt (a : Option String) : String :=
  match a with
  | some s => s
  | none => "null"

/-- Does `pat` occur at the head of `s`? (Helper for `jsIncludes`.) -/
def matchesAt : List Char → List Char → Bool
  | [], _ => true
  | _ :: _, [] => false
  | p :: ps, c :: cs => p == c && matchesAt ps cs

/-- Does `pat` occur anywhere in `s`? (Helper for `jsIncludes`.) -/
def hasSub (pat : List Char) : List Char → Bool
  | [] => matchesAt pat []
  | c :: cs => matchesAt pat (c :: cs) || hasSub pat cs

/-- JavaScript `String.prototype.includes`. -/
def jsIncludes (s pat : String) : Bool :=
  hasSub pat.data s.data

/-- Left-pad the decimal digits of `n` with zeros to length `len`. -/
def padZeros (n : Nat) (len : Nat) : String :=
  let s := toString n
  String.mk (List.replicate (len - s.length) '0') ++ s

/-- JavaScript number-to-string conversion (`` `${x}` ``), on the fragment of
rationals with a terminating decimal expansion of at most ten fractional
digits, which covers every number interpolated on the modelled paths: the
shortest decimal form, with no trailing fractional zeros. Computed on the
reduced numerator/denominator to stay kernel-reducible. -/
def decimalString (q : Rat) : String :=
  let sign := if q.num < 0 then "-" else ""
  let k := ((List.range 11).find? (fun k => 10 ^ k % q.den == 0)).getD 10
  let m := q.num.natAbs * (10 ^ k / q.den)
  if k = 0 then sign ++ toString m
  else sign ++ toString (m / 10 ^ k) ++ "." ++ padZeros (m % 10 ^ k) k

/-- JavaScript `Number.prototype.toFixed(digits)`: fixed-point rendering with
exactly `digits` fractional digits, rounding half away from zero (which agrees
with `toFixed` on the decimal-exact values exercised here).
`(2 * |num| * 10 ^ digits + den) / (2 * den)` is `⌊|q| * 10 ^ digits + 1/2⌋`. -/
def toFixed (digits : Nat) (q : Rat) : String :=
  let sign := if q.num < 0 then "-" else ""
  let m := (2 * q.num.natAbs * 10 ^ digits + q.den) / (2 * q.den)
  if digits = 0 then sign ++ toString m
  else sign ++ toString (m / 10 ^ digits) ++ "." ++ padZeros (m % 10 ^ digits) digits

/-- A JavaScript exception as observed by the `catch` blocks of the service:
an axios rejection carrying an HTTP status (`error.response.status`), an axios
timeout, another network-level failure, or a `TypeError` raised by the body. -/
inductive JsError
  | axiosHttp (status : Nat)
  | axiosTimeout (ms : Nat)
  | axiosNetwork (msg : String)
  | typeError (msg : String)
deriving DecidableEq, Repr

/-- `error.message` for each modelled exception (axios message formats). -/
def errMessage : JsError → String
  | .axiosHttp s => "Request failed with status code " ++ toString s
  | .axiosTimeout ms => "timeout of " ++ toString ms ++ "ms exceeded"
  | .axiosNetwork m => m
  | .typeError m => m

/-- One element of the providers `results` array (the fields the code reads).
String-valued fields may be absent (`undefined`), hence `Option String`. -/
structure ProviderHit where
  lon : Rat
  lat : Rat
  formatted : Option String
  country : Option String
  city : Option String
  county : Option String
  state : Option String
deriving DecidableEq, Repr

/-- Shape of `response.data` as the code inspects it: a `results` array, a
missing/falsy `results` field (or falsy `data`), or a truthy non-array
`results` value (on which `.length` is `undefined` and `.map` throws). -/
inductive RespData
  | results (rs : List ProviderHit)
  | noResults
  | resultsNonArray
deriving DecidableEq, Repr

/-- Outcome of one upstream HTTP request (`axios.get` / `fetch`): a 2xx
response with a parsed body, a rejection with an HTTP error status, a timeout
(`ms` is the configured cap), or another network failure. -/
inductive UpstreamOutcome
  | ok (data : RespData)
  | httpError (status : Nat)
  | timeout (ms : Nat)
  | network (msg : String)
deriving DecidableEq, Repr

/-- A value passed where the code expects a string: either an actual string or
a value of another runtime type (`undefined`, `null`, number, object, ...). -/
inductive JsStrArg
  | str (s : String)
  | nonStr
deriving DecidableEq, Repr

/-- A value passed where the code expects a number. -/
inductive JsNumArg
  | num (q : Rat)
  | nonNum
deriving DecidableEq, Repr

/-- Result object of `GeocodingService.geocodeAddress` (field names as in the
source). Fields that a branch leaves out of the object literal are `none`. -/
structure ForwardResult where
  success : Bool
  coordinates : Option (Rat × Rat)
  address : Option String
  country : Option String
  city : Option String
  state : Option String
  error : Option String
deriving DecidableEq, Repr

/-- The `try` block of `geocodeAddress` (after the input guard): issues the
upstream search request and translates its outcome; HTTP rejections, timeouts
and network failures surface as thrown errors for the `catch` block. -/
def geocodeAddressTry (address : String) (o : UpstreamOutcome) :
    Except JsError ForwardResult :=
  match o with
  | .ok (.results (h :: _)) =>
      .ok ⟨true, some (h.lon, h.lat), some (jsOr h.formatted address),
           some (jsOr h.country ""), some (jsOrChain h.city h.county),
           some (jsOr h.state ""), none⟩
  | .ok _ =>
      -- empty results array, missing results field, or a non-array value
      -- (whose `.length > 0` check is false): the no-results branch
      .ok ⟨false, none, some address, none, none, none,
           some "No results found for the provided address"⟩
  | .httpError s => .error (.axiosHttp s)
  | .timeout ms => .error (.axiosTimeout ms)
  | .network m => .error (.axiosNetwork m)

/-- The `catch` block of `geocodeAddress`: when `error.response` exists,
status 401 and 429 get dedicated messages (`if (statusCode === 401) ... else
if (statusCode === 429) ...`); everything else falls through to the generic
`Geocoding failed:` message. -/
def geocodeCatch (e : JsError) (address : String) : ForwardResult :=
  match e with
  | .axiosHttp statusCode =>
      if statusCode = 401 then
        ⟨false, none, some address, none, none, none,
         some "Invalid API key for geocoding service"⟩
      else if statusCode = 429 then
        ⟨false, none, some address, none, none, none,
         some "Rate limit exceeded for geocoding service"⟩
      else
        ⟨false, none, some address, none, none, none,
         some ("Geocoding failed: " ++ errMessage (.axiosHttp statusCode))⟩
  | e =>
      ⟨false, none, some address, none, none, none,
       some ("Geocoding failed: " ++ errMessage e)⟩

/-- `GeocodingService.geocodeAddress`: rejects a falsy or non-string address
up front (`!address || typeof address !== "string"`), otherwise runs the
request with the `try`/`catch` wrapper. -/
def geocodeAddress (a : JsStrArg) (o : UpstreamOutcome) :
    Except JsError ForwardResult :=
  match a with
  | .nonStr =>
      .ok ⟨false, none, none, none, none, none, some "Invalid address provided"⟩
  | .str s =>
      if s = "" then
        .ok ⟨false, none, none, none, none, none, some "Invalid address provided"⟩
      else
        match geocodeAddressTry s o with
        | .ok r => .ok r
        | .error e => .ok (geocodeCatch e s)

/-- Result object of `GeocodingService.reverseGeocode`. -/
structure ReverseResult where
  success : Bool
  address : Option String
  country : Option String
  city : Option String
  state : Option String
  error : Option String
deriving DecidableEq, Repr

/-- The interpolated label `` `${lat}, ${lng}` `` used by `reverseGeocode`. -/
def coordLabel (lat lng : Rat) : String :=
  decimalString lat ++ ", " ++ decimalString lng

/-- The `try` block of `reverseGeocode` (after the input guard). -/
def reverseGeocodeTry (lat lng : Rat) (o : UpstreamOutcome) :
    Except JsError ReverseResult :=
  match o with
  | .ok (.results (h :: _)) =>
      .ok ⟨true, some (jsOr h.formatted (coordLabel lat lng)),
           some (jsOr h.country ""), some (jsOrChain h.city h.county),
           some (jsOr h.state ""), none⟩
  | .ok _ =>
      .ok ⟨false, some (coordLabel lat lng), none, none, none,
           some "No address found for the provided coordinates"⟩
  | .httpError s => .error (.axiosHttp s)
  | .timeout ms => .error (.axiosTimeout ms)
  | .network m => .error (.axiosNetwork m)

/-- `GeocodingService.reverseGeocode`: the input guard is
`!lat || !lng || typeof lat !== "number" || typeof lng !== "number"` — it
rejects non-numbers and the falsy number `0`, and performs no range check. -/
def reverseGeocode (lat lng : JsNumArg) (o : UpstreamOutcome) :
    Except JsError ReverseResult :=
  match lat, lng with
  | .num la, .num ln =>
      if la = 0 ∨ ln = 0 then
        .ok ⟨false, none, none, none, none, some "Invalid coordinates provided"⟩
      else
        match reverseGeocodeTry la ln o with
        | .ok r => .ok r
        | .error e =>
            .ok ⟨false, some (coordLabel la ln), none, none, none,
                 some ("Reverse geocoding failed: " ++ errMessage e)⟩
  | _, _ =>
      .ok ⟨false, none, none, none, none, some "Invalid coordinates provided"⟩

/-- One autocomplete suggestion as built by `getAutocompleteSuggestions`
(`address: result.formatted` has no fallback, so it may be absent). -/
structure Suggestion where
  address : Option String
  coordinates : Option (Rat × Rat)
  country : String
  city : String
  state : String
deriving DecidableEq, Repr

/-- Result object of `GeocodingService.getAutocompleteSuggestions`. -/
structure AutoResult where
  success : Bool
  suggestions : List Suggestion
  error : Option String
deriving DecidableEq, Repr

/-- Options object passed to `getAutocompleteSuggestions`. -/
structure AutoOptions where
  limit : Option Nat
  country : Option String
deriving DecidableEq, Repr

/-- `result => ({address: result.formatted, coordinates: [result.lon, result.lat], ...})`. -/
def mkSuggestion (h : ProviderHit) : Suggestion :=
  ⟨h.formatted, some (h.lon, h.lat), jsOr h.country "",
   jsOrChain h.city h.county, jsOr h.state ""⟩

/-- `GeocodingService.getAutocompleteSuggestions`: guards
`!query || typeof query !== "string" || query.length < 3`, then requests the
autocomplete endpoint. A truthy `response.data.results` is mapped over —
`.map` on a non-array throws, which the `catch` block turns into the
`Autocomplete failed:` result. -/
def getAutocompleteSuggestions (query : JsStrArg) (opts : AutoOptions)
    (o : UpstreamOutcome) : Except JsError AutoResult :=
  match query with
  | .nonStr => .ok ⟨false, [], some "Query must be at least 3 characters long"⟩
  | .str q =>
      if q.length < 3 then
        .ok ⟨false, [], some "Query must be at least 3 characters long"⟩
      else
        let tryBody : Except JsError AutoResult :=
          match o with
          | .ok (.results rs) => .ok ⟨true, rs.map mkSuggestion, none⟩
          | .ok .noResults => .ok ⟨false, [], some "No suggestions found"⟩
          | .ok .resultsNonArray =>
              .error (.typeError "response.data.results.map is not a function")
          | .httpError s => .error (.axiosHttp s)
          | .timeout ms => .error (.axiosTimeout ms)
          | .network m => .error (.axiosNetwork m)
        match tryBody with
        | .ok r => .ok r
        | .error e => .ok ⟨false, [], some ("Autocomplete failed: " ++ errMessage e)⟩

/-- `DEFAULT_COORDINATES` — Bhubaneswar fallback point. -/
structure DefaultCoords where
  lat : Rat
  lng : Rat
deriving DecidableEq, Repr

def DEFAULT_COORDINATES : DefaultCoords :=
  ⟨mkRat 20296 1000, mkRat 858246 10000⟩

example : decimalString (mkRat 1 2) = "0.5" := by decide
example : decimalString 28 = "28" := by decide
example : decimalString (mkRat (-1234) 100) = "-12.34" := by decide
example : decimalString (mkRat 858246 10000) = "85.8246" := by decide
example : toFixed 4 (mkRat 1 2) = "0.5000" := by decide
example : toFixed 4 (mkRat 123456 10000) = "12.3456" := by decide
example : coordLabel (mkRat 1 2) (mkRat 3 4) = "0.5, 0.75" := by decide
example : jsIncludes "HTTP 429: Too Many Requests" "429" = true := by decide
example : jsIncludes "HTTP 500: Server Error" "429" = false := by decide

/-! ## The `getAddressSuggestions` HTTP endpoint (`controllers/listings.js`) -/

/-- A runtime JavaScript value, as the endpoint inspects the fields of the
geocoding-service result and builds the JSON response body: the shapes its
defensive checks (`|| false`, `Array.isArray`, `|| null`) distinguish.
`jobj` stands for any other truthy non-array object value. -/
inductive JsRaw
  | jundef
  | jnull
  | jbool (b : Bool)
  | jnum (q : Rat)
  | jstr (s : String)
  | jarr (xs : List Suggestion)
  | jobj
deriving DecidableEq, Repr

/-- JavaScript truthiness of a raw value. -/
def jsTruthy : JsRaw → Bool
  | .jundef => false
  | .jnull => false
  | .jbool b => b
  | .jnum q => decide (q ≠ 0)
  | .jstr s => decide (s ≠ "")
  | .jarr _ => true
  | .jobj => true

/-- JavaScript `a || b` on raw values. -/
def jsOrRaw (a b : JsRaw) : JsRaw :=
  if jsTruthy a then a else b

/-- `Array.isArray`. -/
def isArray : JsRaw → Bool
  | .jarr _ => true
  | _ => false

/-- The awaited geocoding-service return value as the endpoint checks it:
either not a truthy object — `result && typeof result === "object"` fails and
the endpoint throws — or an object whose three fields are arbitrary runtime
values (so malformed service results are representable). -/
inductive ServiceValue
  | notObject
  | obj (success suggestions error : JsRaw)
deriving DecidableEq, Repr

/-- JSON body sent by `res.json({success, suggestions, error})`. -/
structure EndpointBodyJson where
  success : JsRaw
  suggestions : JsRaw
  error : JsRaw
deriving DecidableEq, Repr

/-- An HTTP response of the endpoint: status code plus JSON body. -/
structure EndpointResponse where
  status : Nat
  body : EndpointBodyJson
deriving DecidableEq, Repr

/-- A query-string parameter as express delivers it: absent, a string, or a
non-string value (e.g. an array from a repeated parameter). -/
inductive QueryParam
  | missing
  | str (s : String)
  | nonString
deriving DecidableEq, Repr

/-- Body used by every validation-failure and catch path of the endpoint. -/
def errBody (msg : String) : EndpointBodyJson :=
  ⟨.jbool false, .jarr [], .jstr msg⟩

/-- Whitespace characters relevant to `String.prototype.trim` here. -/
def isWsChar (c : Char) : Bool :=
  c == ' ' || c == '\t' || c == '\n' || c == '\r'

/-- Drop leading whitespace characters. -/
def dropWs : List Char → List Char
  | [] => []
  | c :: cs => if isWsChar c then dropWs cs else c :: cs

/-- JavaScript `String.prototype.trim`, on the character-list representation
so that concrete inputs evaluate. -/
def jsTrim (s : String) : String :=
  String.mk ((dropWs (dropWs s.data).reverse).reverse)

/-- `module.exports.getAddressSuggestions`, parametrized by the geocoding
service it calls (`createGeocodingService(token).getAutocompleteSuggestions`),
whose awaited value is delivered as a raw runtime value: validates the query
parameter (falsy or non-string, length < 2, length > 200), requires
`MAP_TOKEN`, builds the options (`limit: 5`, lowercased country bias when the
country parameter is a non-empty string), awaits the service on the trimmed
query, throws on a non-object result
(`throw new Error("Invalid response from geocoding service")`, landing in the
same catch block as a rejected service promise → HTTP 500), and otherwise
normalizes the fields: `result.success || false`,
`Array.isArray(result.suggestions) ? result.suggestions : []`,
`result.error || null`. -/
def getAddressSuggestions (query country : QueryParam) (mapToken : Option String)
    (service : JsStrArg → AutoOptions → Except JsError ServiceValue) :
    EndpointResponse :=
  match query with
  | .missing => ⟨400, errBody "Query parameter is required and must be a string"⟩
  | .nonString => ⟨400, errBody "Query parameter is required and must be a string"⟩
  | .str q =>
      if q = "" then ⟨400, errBody "Query parameter is required and must be a string"⟩
      else if q.length < 2 then ⟨400, errBody "Query must be at least 2 characters long"⟩
      else if q.length > 200 then ⟨400, errBody "Query is too long"⟩
      else if mapToken.getD "" = "" then
        ⟨500, errBody "Geocoding service not available"⟩
      else
        let opts : AutoOptions :=
          ⟨some 5,
           match country with
           | .str c => if c = "" then none else some c.toLower
           | _ => none⟩
        match service (.str (jsTrim q)) opts with
        | .error _ => ⟨500, errBody "Failed to get address suggestions"⟩
        | .ok .notObject => ⟨500, errBody "Failed to get address suggestions"⟩
        | .ok (.obj s sug err) =>
            ⟨200,
             ⟨jsOrRaw s (.jbool false),
              if isArray sug then sug else .jarr [],
              jsOrRaw err .jnull⟩⟩

/-- The runtime value of an `AutoResult` produced by the repository's
`getAutocompleteSuggestions`: a plain object with a boolean `success`, an
array `suggestions`, and a string-or-null `error`. -/
def encodeAutoResult (r : AutoResult) : ServiceValue :=
  .obj (.jbool r.success) (.jarr r.suggestions)
       (match r.error with | some s => .jstr s | none => .jnull)

/-- The deployed endpoint's service: the repository's own
`getAutocompleteSuggestions` run against provider outcome `o`, its result
delivered as a raw runtime value. -/
def liveService (o : UpstreamOutcome) :
    JsStrArg → AutoOptions → Except JsError ServiceValue :=
  fun q opts => (getAutocompleteSuggestions q opts o).map encodeAutoResult

/-! ## The `AddressAutocomplete` session (`controllers/listings.js`) -/

/-- Parsed JSON body of a response of the `/api/address-suggestions` fetch as
`fetchSuggestions` inspects it (`data.success && data.suggestions`; a missing
`suggestions` field is falsy, an empty array is truthy). -/
structure FetchBody where
  success : Bool
  suggestions : Option (List Suggestion)
  error : Option String
deriving DecidableEq, Repr

/-- Outcome of one `fetch` call made by the client code. -/
inductive FetchResp
  | ok (body : FetchBody)
  | status (code : Nat)
  | abort
  | netError (msg : String)
deriving DecidableEq, Repr

/-- What the suggestions dropdown currently shows. -/
inductive ACDisplay
  | hidden
  | loading
  | showing (ss : List Suggestion)
  | noResults
  | errorMsg (m : String)
deriving DecidableEq, Repr

/-- The mutable fields of `AddressAutocomplete` relevant to fetching and
display: `suggestions`, `currentIndex`, `isLoading`, and the dropdown state. -/
structure ACState where
  suggestions : List Suggestion
  currentIndex : Int
  isLoading : Bool
  display : ACDisplay
deriving DecidableEq, Repr

/-- Constructor state: `suggestions = []`, `currentIndex = -1`,
`isLoading = false`, dropdown hidden. -/
def acInit : ACState :=
  ⟨[], -1, false, .hidden⟩

/-- `displaySuggestions()`: empty list shows the no-results row, otherwise the
items are rendered, `currentIndex` is reset to `-1` and the list is shown. -/
def displaySuggestions (st : ACState) : ACState :=
  if st.suggestions = [] then { st with display := .noResults }
  else { st with currentIndex := -1, display := .showing st.suggestions }

def connectionErrorText : String :=
  "Unable to load suggestions. Please check your connection."

/-- `fetchSuggestions(query, attempt)` run to completion against a script of
fetch outcomes (`resps`; the head is consumed by the next request issued).
The entry guard `if (this.isLoading) return;` drops the call while a request
is in flight. On 429 with `attempt <= 2` (and likewise on the catch-block
retry path for other retryable errors) the code awaits a delay and re-invokes
itself; `isLoading` is still `true` at that point — the recursive call is
kept in the definition exactly as in the source, and the `finally` block then
clears `isLoading`. An empty script means the awaited response never
resolves (the function stays suspended). -/
def fetchSuggestions (st : ACState) (query : String) (attempt : Nat)
    (resps : List FetchResp) : ACState :=
  if st.isLoading then st
  else
    let st1 := { st with isLoading := true, display := .loading }
    match resps with
    | [] => st1
    | r :: rest =>
      match r with
      | .ok body =>
          if body.success ∧ body.suggestions.isSome then
            let st2 := displaySuggestions { st1 with suggestions := body.suggestions.getD [] }
            { st2 with isLoading := false }
          else
            { st1 with display := .errorMsg (jsOr body.error "No suggestions found"),
                       isLoading := false }
      | .status code =>
          if code = 429 ∧ attempt ≤ 2 then
            let st2 := fetchSuggestions st1 query (attempt + 1) rest
            { st2 with isLoading := false }
          else if attempt ≤ 2 ∧ jsIncludes ("HTTP " ++ toString code ++ ": ") "429" = false then
            let st2 := fetchSuggestions st1 query (attempt + 1) rest
            { st2 with isLoading := false }
          else
            { st1 with display := .errorMsg connectionErrorText, isLoading := false }
      | .abort =>
          { st1 with display := .errorMsg "Request timed out. Please try again.",
                     isLoading := false }
      | .netError msg =>
          if attempt ≤ 2 ∧ jsIncludes msg "429" = false then
            let st2 := fetchSuggestions st1 query (attempt + 1) rest
            { st2 with isLoading := false }
          else
            { st1 with display := .errorMsg connectionErrorText, isLoading := false }

/-- An observable event of one autocomplete session: the debounce timer fires
for a query (invoking `fetchSuggestions(query, 1)`), or the response of the
request currently in flight arrives. -/
inductive ACEvent
  | debounceFire (q : String)
  | respond (r : FetchResp)
deriving DecidableEq, Repr

/-- Session state for the interleaving semantics: the component state plus the
query/attempt of the request whose `await fetch` is outstanding, if any. -/
structure SessionState where
  ac : ACState
  inFlight : Option (String × Nat)
deriving DecidableEq, Repr

def sessInit : SessionState :=
  ⟨acInit, none⟩

/-- Small-step interleaving semantics of the session.

* `debounceFire q`: `fetchSuggestions(q, 1)` runs up to its `await fetch`.
  If `isLoading` is already set the call returns at the entry guard and the
  query is silently dropped; otherwise `isLoading` is set, the loading row is
  shown, and the request becomes the in-flight one.
* `respond r`: the outstanding `await` resumes with outcome `r` and the rest
  of `fetchSuggestions` runs. There is no staleness check: a successful body
  is stored and displayed unconditionally. On the retry paths the re-invoked
  `fetchSuggestions` returns at its entry guard (`isLoading` is still `true`
  during the backoff delay, and any `debounceFire` during that delay is
  likewise dropped), so only the `finally` block runs. -/
def acStep (s : SessionState) (e : ACEvent) : SessionState :=
  match e with
  | .debounceFire q =>
      if s.ac.isLoading then s
      else ⟨{ s.ac with isLoading := true, display := .loading }, some (q, 1)⟩
  | .respond r =>
      match s.inFlight with
      | none => s
      | some (_, attempt) =>
        match r with
        | .ok body =>
            if body.success ∧ body.suggestions.isSome then
              let st2 := displaySuggestions
                { s.ac with suggestions := body.suggestions.getD [] }
              ⟨{ st2 with isLoading := false }, none⟩
            else
              ⟨{ s.ac with display := .errorMsg (jsOr body.error "No suggestions found"),
                           isLoading := false }, none⟩
        | .status code =>
            if code = 429 ∧ attempt ≤ 2 then
              ⟨{ s.ac with isLoading := false }, none⟩
            else if attempt ≤ 2 ∧ jsIncludes ("HTTP " ++ toString code ++ ": ") "429" = false then
              ⟨{ s.ac with isLoading := false }, none⟩
            else
              ⟨{ s.ac with display := .errorMsg connectionErrorText,
                           isLoading := false }, none⟩
        | .abort =>
            ⟨{ s.ac with display := .errorMsg "Request timed out. Please try again.",
                         isLoading := false }, none⟩
        | .netError msg =>
            if attempt ≤ 2 ∧ jsIncludes msg "429" = false then
              ⟨{ s.ac with isLoading := false }, none⟩
            else
              ⟨{ s.ac with display := .errorMsg connectionErrorText,
                           isLoading := false }, none⟩

/-- Run a sequence of session events. -/
def acRun (s : SessionState) (es : List ACEvent) : SessionState :=
  es.foldl acStep s

/-! ## Suggestion selection and form-field updates (`controllers/listings.js`) -/

/-- The form fields touched by suggestion selection: the location input the
session owns (always present), and the optional country / latitude /
longitude inputs (`none` when the element is absent from the DOM; the string
is the current field value). -/
structure FormFields where
  locationInput : String
  country : Option String
  latitude : Option String
  longitude : Option String
deriving DecidableEq, Repr

/-- Assigning a possibly-`undefined` string to `input.value` (JavaScript
stringifies `undefined`). -/
def jsValStr : Option String → String
  | some s => s
  | none => "undefined"

/-- `updateRelatedFields(suggestion)`: the country field is written only when
it exists, the suggestion carries a truthy country, and the current value is
falsy; the latitude/longitude fields are written unconditionally whenever the
suggestion carries coordinates. -/
def updateRelatedFields (f : FormFields) (s : Suggestion) : FormFields :=
  let f1 :=
    match f.country with
    | some v => if s.country ≠ "" ∧ v = "" then { f with country := some s.country } else f
    | none => f
  match s.coordinates with
  | some (lng, lat) =>
      { f1 with latitude := f1.latitude.map (fun _ => decimalString lat),
                longitude := f1.longitude.map (fun _ => decimalString lng) }
  | none => f1

/-- `ListingMap.updateLocationFields(lat, lng, address)`: the location field
gets the address when truthy; the latitude/longitude fields are written
unconditionally when present. -/
def updateLocationFields (f : FormFields) (lat lng : Rat) (address : Option String) :
    FormFields :=
  let f1 :=
    match address with
    | some a => if a ≠ "" then { f with locationInput := a } else f
    | none => f
  { f1 with latitude := f1.latitude.map (fun _ => decimalString lat),
            longitude := f1.longitude.map (fun _ => decimalString lng) }

/-- `updateMapLocation(suggestion)` (field effects only): when a map is
present and the suggestion has in-range coordinates, `setLocation` runs
`updateLocationFields`; without coordinates the code falls back to an
asynchronous geocode (`geocodeAndUpdateMap`), which changes no field
synchronously and is not modelled further. -/
def updateMapLocation (f : FormFields) (s : Suggestion) (mapPresent : Bool) : FormFields :=
  if mapPresent then
    match s.coordinates with
    | some (lng, lat) =>
        if -90 ≤ lat ∧ lat ≤ 90 ∧ -180 ≤ lng ∧ lng ≤ 180 then
          updateLocationFields f lat lng s.address
        else f
    | none => f
  else f

/-- `selectSuggestion(index)`: looks up the suggestion (`if (!suggestion)
return`), writes the input value, runs `updateRelatedFields`, hides the list,
fires the change event and the `onSelect` callback (no field effects), and
runs `updateMapLocation`. -/
def selectSuggestion (f : FormFields) (suggestions : List Suggestion) (index : Nat)
    (mapPresent : Bool) : FormFields :=
  match suggestions[index]? with
  | none => f
  | some s =>
      let f1 := { f with locationInput := jsValStr s.address }
      let f2 := updateRelatedFields f1 s
      updateMapLocation f2 s mapPresent

/-! ## `ListingMap` pin placement and reverse geocoding (client side) -/

/-- Observable effect of `ListingMap.onMapClick(e)`: whether the optimistic
temporary marker was placed and whether a reverse geocode was started. The
handler returns immediately when click-geocoding is disabled; otherwise it
places the marker and issues `reverseGeocode(lat, lng)` — there is no
coordinate validation of any kind. -/
structure MapClick where
  markerPlaced : Bool
  reverseRequested : Option (Rat × Rat)
deriving DecidableEq, Repr

def onMapClick (enableClickGeocoding : Bool) (lat lng : Rat) : MapClick :=
  if enableClickGeocoding then ⟨true, some (lat, lng)⟩ else ⟨false, none⟩

/-- `ListingMap.reverseGeocode(lat, lng, attempt)` against a script of fetch
outcomes, with the default `retryAttempts = 3`. Unlike the service version,
these retries are real: each recursive call issues a new request (consumes the
next script entry). Returns the formatted address of the first result, the
`Location:` fallback label on an empty result set, or `null` after an abort
or exhausted retries. -/
def mapReverseGeocode (apiKey : String) (lat lng : Rat) (attempt : Nat)
    (resps : List UpstreamOutcome) : Option String :=
  if apiKey = "" then none
  else
    match resps with
    | [] => none
    | r :: rest =>
      match r with
      | .ok (.results (h :: _)) => h.formatted
      | .ok _ => some ("Location: " ++ toFixed 4 lat ++ ", " ++ toFixed 4 lng)
      | .httpError s =>
          if s = 429 ∧ attempt ≤ 3 then mapReverseGeocode apiKey lat lng (attempt + 1) rest
          else if attempt ≤ 3 ∧ jsIncludes ("HTTP " ++ toString s ++ ": ") "429" = false then
            mapReverseGeocode apiKey lat lng (attempt + 1) rest
          else none
      | .timeout _ => none
      | .network m =>
          if attempt ≤ 3 ∧ jsIncludes m "429" = false then
            mapReverseGeocode apiKey lat lng (attempt + 1) rest
          else none

/-! ## Listing create/update geocoding integration (`controllers/listings.js`) -/

/-- A listing geometry object `{type, coordinates}`; `coordinates` is whatever
the geocode result supplied (possibly `null`). -/
structure Geometry where
  gtype : String
  coordinates : Option (Rat × Rat)
deriving DecidableEq, Repr

/-- The `{type: "Point", coordinates: [DEFAULT_COORDINATES.lng,
DEFAULT_COORDINATES.lat]}` fallback geometry. -/
def defaultGeometry : Geometry :=
  ⟨"Point", some (DEFAULT_COORDINATES.lng, DEFAULT_COORDINATES.lat)⟩

/-- The listing fields the geocoding integration touches. -/
structure ListingRec where
  location : String
  country : String
  geometry : Option Geometry
deriving DecidableEq, Repr

/-- A flash message queued on the request. -/
inductive Flash
  | success (m : String)
  | warning (m : String)
  | error (m : String)
deriving DecidableEq, Repr

/-- Outcome of a create/update controller run: the listing as saved, whether
`save()` was reached, and the queued flash messages in order. -/
structure ControllerResult where
  listing : ListingRec
  saved : Bool
  flashes : List Flash
deriving DecidableEq, Repr

/-- `module.exports.createListing` (geocoding-relevant behaviour, file upload
handling omitted): on geocode success the geometry, possibly the formatted
address, and possibly the country are taken from the result; on geocode
failure the default geometry is stored, a warning is flashed, and the save
still proceeds. A thrown geocode (never the case, see `geocodeAddress`) would
land in the outer catch without saving. -/
def createListing (location country : String) (g : Except JsError ForwardResult) :
    ControllerResult :=
  match g with
  | .error _ =>
      ⟨⟨location, country, none⟩, false,
       [.error "Failed to create listing. Please try again."]⟩
  | .ok r =>
      let base : ListingRec := ⟨location, country, none⟩
      if r.success then
        let l1 := { base with geometry := some ⟨"Point", r.coordinates⟩ }
        let l2 :=
          match r.address with
          | some a => if a ≠ "" ∧ a ≠ location then { l1 with location := a } else l1
          | none => l1
        let l3 :=
          match r.country with
          | some c => if country = "" ∧ c ≠ "" then { l2 with country := c } else l2
          | none => l2
        ⟨l3, true, [.success "New Listing Created with location mapped successfully!"]⟩
      else
        ⟨{ base with geometry := some defaultGeometry }, true,
         [.warning ("Listing created but location mapping failed: " ++ jsShowOpt r.error ++
                    ". Please update the address for accurate location display.")]⟩

/-- `module.exports.updateListing` (geocoding-relevant behaviour): `merged` is
the listing after `findByIdAndUpdate` merged the request body (so
`merged.location` is the submitted location when one was submitted);
`bodyLocation` is `req.body.listing.location` with `""` for absent/falsy.
Geocoding runs only for a truthy submitted location. On failure the existing
geometry is kept when it has coordinates, and the default geometry is stored
only when it does not; a warning is flashed and the save still proceeds,
followed by the unconditional success flash. -/
def updateListing (merged : ListingRec) (bodyLocation : String)
    (g : Except JsError ForwardResult) : ControllerResult :=
  if bodyLocation = "" then
    ⟨merged, true, [.success "Listing Updated Successfully!"]⟩
  else
    match g with
    | .error _ =>
        ⟨merged, false, [.error "Failed to update listing. Please try again."]⟩
    | .ok r =>
        if r.success then
          let l1 := { merged with geometry := some ⟨"Point", r.coordinates⟩ }
          let l2 :=
            match r.address with
            | some a => if a ≠ "" ∧ a ≠ bodyLocation then { l1 with location := a } else l1
            | none => l1
          let l3 :=
            match r.country with
            | some c => if merged.country = "" ∧ c ≠ "" then { l2 with country := c } else l2
            | none => l2
          ⟨l3, true, [.success "Listing Updated Successfully!"]⟩
        else
          let geomOk :=
            match merged.geometry with
            | some gm => gm.coordinates.isSome
            | none => false
          let l1 := if geomOk then merged else { merged with geometry := some defaultGeometry }
          ⟨l1, true,
           [.warning ("Listing updated but location mapping failed: " ++ jsShowOpt r.error),
            .success "Listing Updated Successfully!"]⟩

/-! ## Theorems -/

/-- Claim C8 (confirmed): for every input and every provider outcome (HTTP
error status, timeout, network failure, malformed response body), each of the
three service operations returns a structured result value (`Except.ok`) and
never propagates an exception to the caller — every throwing path of the
bodies is absorbed by the corresponding `catch` block. -/
theorem c8_never_throws :
    (∀ (a : JsStrArg) (o : UpstreamOutcome), ∃ r, geocodeAddress a o = .ok r)
  ∧ (∀ (lat lng : JsNumArg) (o : UpstreamOutcome), ∃ r, reverseGeocode lat lng o = .ok r)
  ∧ (∀ (q : JsStrArg) (opts : AutoOptions) (o : UpstreamOutcome),
        ∃ r, getAutocompleteSuggestions q opts o = .ok r) := by
  refine ⟨?_, ?_, ?_⟩
  · intro a o
    rcases a with s | _
    · rw [geocodeAddress]
      split
      · exact ⟨_, rfl⟩
      · rcases h : geocodeAddressTry s o with e | r
        · exact ⟨_, rfl⟩
        · exact ⟨_, rfl⟩
    · exact ⟨_, rfl⟩
  · intro lat lng o
    rcases lat with la | _ <;> rcases lng with ln | _
    · rw [reverseGeocode]
      split
      · exact ⟨_, rfl⟩
      · rcases h : reverseGeocodeTry la ln o with e | r
        · exact ⟨_, rfl⟩
        · exact ⟨_, rfl⟩
    · exact ⟨_, rfl⟩
    · exact ⟨_, rfl⟩
    · exact ⟨_, rfl⟩
  · intro q opts o
    rcases q with s | _
    · rw [getAutocompleteSuggestions.eq_def]
      dsimp only
      split
      · exact ⟨_, rfl⟩
      · rcases o with d | st | ms | m
        · rcases d with rs | _ | _ <;> exact ⟨_, rfl⟩
        · exact ⟨_, rfl⟩
        · exact ⟨_, rfl⟩
        · exact ⟨_, rfl⟩
    · exact ⟨_, rfl⟩

/-- Claim C9 (confirmed): `reverseGeocode` rejects any call in which `lat` or
`lng` is `0` (or not a number) with the `Invalid coordinates provided`
failure; the result does not depend on the provider outcome `o`, i.e. no
upstream request is consulted — even though `0` is within the valid
coordinate ranges, so points on the equator or prime meridian can never be
reverse-geocoded. -/
theorem c9_zero_coordinate_rejected (lat lng : JsNumArg) (o : UpstreamOutcome)
    (h : lat = .num 0 ∨ lat = .nonNum ∨ lng = .num 0 ∨ lng = .nonNum) :
    reverseGeocode lat lng o =
      .ok ⟨false, none, none, none, none, some "Invalid coordinates provided"⟩ := by
  rcases h with rfl | rfl | rfl | rfl
  · rcases lng with ln | _
    · simp [reverseGeocode]
    · rfl
  · rfl
  · rcases lat with la | _
    · simp [reverseGeocode]
    · rfl
  · rcases lat with la | _
    · rfl
    · rfl

/-- Witness for C9: latitude `0` with an in-range longitude and a provider
that would have answered is still rejected up front. -/
theorem c9_zero_coordinate_rejected_witness :
    reverseGeocode (.num 0) (.num (mkRat 777 10))
        (.ok (.results [⟨mkRat 777 10, 0, some "Equator", none, none, none, none⟩])) =
      .ok ⟨false, none, none, none, none, some "Invalid coordinates provided"⟩ :=
  c9_zero_coordinate_rejected _ _ _ (Or.inl rfl)

/-- Counterexample for C3: on an in-range point with an empty provider result
set, `reverseGeocode` returns `success = false` together with a non-null
synthesized `address`, so `success == true iff address != null` fails for the
reverse direction. -/
theorem c3_counterexample :
    reverseGeocode (.num (mkRat 3 4)) (.num (mkRat 3 4)) (.ok (.results [])) =
      .ok ⟨false, some "0.75, 0.75", none, none, none,
           some "No address found for the provided coordinates"⟩
  ∧ ¬((false = true) ↔ (some "0.75, 0.75" ≠ (none : Option String))) :=
  ⟨rfl, by decide⟩

/-- Claim C3 (corrected): for forward geocoding the invariant holds in full:
`success = true` iff `coordinates` is non-null, and `error` is null iff
`success = true`. For reverse geocoding only the forward implication holds:
`success = true` implies `address` is non-null, but the converse fails (the
no-results and catch paths return `success = false` with a synthesized
non-null address); `error` is null iff `success = true` also holds there. -/
theorem c3_amended :
    (∀ (a : JsStrArg) (o : UpstreamOutcome) (r : ForwardResult),
        geocodeAddress a o = .ok r →
          ((r.success = true ↔ r.coordinates ≠ none) ∧ (r.error = none ↔ r.success = true)))
  ∧ (∀ (lat lng : JsNumArg) (o : UpstreamOutcome) (r : ReverseResult),
        reverseGeocode lat lng o = .ok r →
          ((r.success = true → r.address ≠ none) ∧ (r.error = none ↔ r.success = true))) := by
  constructor
  · intro a o r h
    rcases a with s | _
    · by_cases hs : s = ""
      · rw [geocodeAddress, if_pos hs] at h
        injection h with h; subst h; simp
      · rw [geocodeAddress, if_neg hs] at h
        rcases o with d | st | ms | m
        · rcases d with rs | _ | _
          · rcases rs with _ | ⟨h0, t⟩ <;>
              (simp only [geocodeAddressTry] at h; injection h with h; subst h; simp)
          · simp only [geocodeAddressTry] at h; injection h with h; subst h; simp
          · simp only [geocodeAddressTry] at h; injection h with h; subst h; simp
        · simp only [geocodeAddressTry, geocodeCatch] at h
          injection h with h; subst h
          split_ifs <;> simp
        · simp only [geocodeAddressTry, geocodeCatch] at h
          injection h with h; subst h; simp
        · simp only [geocodeAddressTry, geocodeCatch] at h
          injection h with h; subst h; simp
    · simp only [geocodeAddress] at h
      injection h with h; subst h; simp
  · intro lat lng o r h
    rcases lat with la | _ <;> rcases lng with ln | _
    · by_cases hz : la = 0 ∨ ln = 0
      · rw [reverseGeocode, if_pos hz] at h
        injection h with h; subst h; simp
      · rw [reverseGeocode, if_neg hz] at h
        rcases o with d | st | ms | m
        · rcases d with rs | _ | _
          · rcases rs with _ | ⟨h0, t⟩ <;>
              (simp only [reverseGeocodeTry] at h; injection h with h; subst h; simp)
          · simp only [reverseGeocodeTry] at h; injection h with h; subst h; simp
          · simp only [reverseGeocodeTry] at h; injection h with h; subst h; simp
        · simp only [reverseGeocodeTry] at h; injection h with h; subst h; simp
        · simp only [reverseGeocodeTry] at h; injection h with h; subst h; simp
        · simp only [reverseGeocodeTry] at h; injection h with h; subst h; simp
    · simp only [reverseGeocode] at h
      injection h with h; subst h; simp
    · simp only [reverseGeocode] at h
      injection h with h; subst h; simp
    · simp only [reverseGeocode] at h
      injection h with h; subst h; simp

/-- Witness for C3 (amended): the amended invariant evaluated on the concrete
forward no-results result for the address `somewhere`. -/
theorem c3_amended_witness :
    ((⟨false, none, some "somewhere", none, none, none,
        some "No results found for the provided address"⟩ : ForwardResult).success = true ↔
      (⟨false, none, some "somewhere", none, none, none,
        some "No results found for the provided address"⟩ : ForwardResult).coordinates ≠ none)
  ∧ ((⟨false, none, some "somewhere", none, none, none,
        some "No results found for the provided address"⟩ : ForwardResult).error = none ↔
      (⟨false, none, some "somewhere", none, none, none,
        some "No results found for the provided address"⟩ : ForwardResult).success = true) :=
  c3_amended.1 (.str "somewhere") (.ok .noResults)
    ⟨false, none, some "somewhere", none, none, none,
     some "No results found for the provided address"⟩ rfl

/-- Counterexample for C2: for the out-of-range latitude `100`,
`reverseGeocode` does not reject: the upstream request is made and (here)
succeeds, so no `InvalidInput`-style failure is returned; and `onMapClick`
places the optimistic marker and starts a reverse geocode without any
coordinate validation. -/
theorem c2_counterexample :
    reverseGeocode (.num 100) (.num 50)
        (.ok (.results [⟨50, 100, some "Arctic Research Station", none, none, none, none⟩])) =
      .ok ⟨true, some "Arctic Research Station", some "", some "", some "", none⟩
  ∧ ¬((100 : Rat) ≤ 90)
  ∧ onMapClick true 100 50 = ⟨true, some (100, 50)⟩ :=
  ⟨rfl, by decide, rfl⟩

/-- Claim C2 (corrected): the only coordinate validation in `reverseGeocode`
is the falsy/type guard — `0` or a non-number is rejected with `Invalid
coordinates provided` independently of the provider outcome (no request), but
any nonzero numeric coordinates, in range or not, are passed through to the
provider and can even succeed; and `onMapClick` performs no coordinate
validation at all: with click-geocoding enabled it always places the
optimistic marker and starts the reverse geocode. -/
theorem c2_amended :
    (∀ (lat lng : JsNumArg) (o : UpstreamOutcome),
        (lat = .num 0 ∨ lat = .nonNum ∨ lng = .num 0 ∨ lng = .nonNum) →
          reverseGeocode lat lng o =
            .ok ⟨false, none, none, none, none, some "Invalid coordinates provided"⟩)
  ∧ (∀ (la ln : Rat) (h0 : ProviderHit) (t : List ProviderHit),
        la ≠ 0 → ln ≠ 0 →
          reverseGeocode (.num la) (.num ln) (.ok (.results (h0 :: t))) =
            .ok ⟨true, some (jsOr h0.formatted (coordLabel la ln)), some (jsOr h0.country ""),
                 some (jsOrChain h0.city h0.county), some (jsOr h0.state ""), none⟩)
  ∧ (∀ (la ln : Rat), onMapClick true la ln = ⟨true, some (la, ln)⟩) := by
  refine ⟨?_, ?_, fun la ln => rfl⟩
  · intro lat lng o h
    rcases h with rfl | rfl | rfl | rfl
    · rcases lng with ln | _
      · simp [reverseGeocode]
      · rfl
    · rfl
    · rcases lat with la | _
      · simp [reverseGeocode]
      · rfl
    · rcases lat with la | _ <;> rfl
  · intro la ln h0 t hla hln
    simp [reverseGeocode, reverseGeocodeTry, hla, hln]

/-- Witness for C2 (amended): instantiation at latitude `0` (rejected), at the
out-of-range pair `(91, 181)` (passed through and successful), and a marker
placement. -/
theorem c2_amended_witness :
    reverseGeocode (.num 0) (.num 10) (.ok .noResults) =
      .ok ⟨false, none, none, none, none, some "Invalid coordinates provided"⟩
  ∧ reverseGeocode (.num 91) (.num 181) (.ok (.results [⟨181, 91, none, none, none, none, none⟩])) =
      .ok ⟨true, some (jsOr none (coordLabel 91 181)), some (jsOr none ""),
           some (jsOrChain none none), some (jsOr none ""), none⟩
  ∧ onMapClick true 91 181 = ⟨true, some (91, 181)⟩ :=
  ⟨c2_amended.1 _ _ _ (Or.inl rfl),
   c2_amended.2.1 91 181 ⟨181, 91, none, none, none, none, none⟩ [] (by decide) (by decide),
   c2_amended.2.2 91 181⟩

/-- Counterexample for C4: updating a listing that already has valid geometry
with an address whose geocoding yields no results keeps the existing geometry
— it does not store the `DEFAULT_COORDINATES` point (the warning and the
successful save do happen). -/
theorem c4_counterexample :
    updateListing ⟨"Old Address", "India", some ⟨"Point", some (10, 20)⟩⟩ "Nowhere Street"
        (geocodeAddress (.str "Nowhere Street") (.ok .noResults)) =
      ⟨⟨"Old Address", "India", some ⟨"Point", some (10, 20)⟩⟩, true,
       [.warning "Listing updated but location mapping failed: No results found for the provided address",
        .success "Listing Updated Successfully!"]⟩
  ∧ some (⟨"Point", some ((10 : Rat), (20 : Rat))⟩ : Geometry) ≠ some defaultGeometry :=
  ⟨rfl, by decide⟩

/-- Claim C4 (corrected): when forward geocoding of the submitted address
fails (any failure, including no-results), creation always stores the
`DEFAULT_COORDINATES` point, flashes a warning, and still saves; an update
flashes a warning and still saves, but keeps the existing geometry whenever it
has coordinates, storing the default point only when the geometry is absent
or lacks coordinates. -/
theorem c4_amended :
    (∀ (location country : String) (r : ForwardResult), r.success = false →
        createListing location country (.ok r) =
          ⟨⟨location, country, some defaultGeometry⟩, true,
           [.warning ("Listing created but location mapping failed: " ++ jsShowOpt r.error ++
                      ". Please update the address for accurate location display.")]⟩)
  ∧ (∀ (merged : ListingRec) (bodyLocation : String) (r : ForwardResult)
        (gm : Geometry) (c : Rat × Rat),
        bodyLocation ≠ "" → r.success = false →
        merged.geometry = some gm → gm.coordinates = some c →
          updateListing merged bodyLocation (.ok r) =
            ⟨merged, true,
             [.warning ("Listing updated but location mapping failed: " ++ jsShowOpt r.error),
              .success "Listing Updated Successfully!"]⟩)
  ∧ (∀ (merged : ListingRec) (bodyLocation : String) (r : ForwardResult),
        bodyLocation ≠ "" → r.success = false →
        (merged.geometry = none ∨ ∃ gm, merged.geometry = some gm ∧ gm.coordinates = none) →
          (updateListing merged bodyLocation (.ok r)).listing.geometry = some defaultGeometry) := by
  refine ⟨?_, ?_, ?_⟩
  · intro location country r hr
    simp [createListing, hr]
  · intro merged bodyLocation r gm c hbl hr hg hc
    simp [updateListing, hbl, hr, hg, hc]
  · intro merged bodyLocation r hbl hr hg
    rcases hg with hg | ⟨gm, hg, hc⟩
    · simp [updateListing, hbl, hr, hg]
    · simp [updateListing, hbl, hr, hg, hc]

/-- Witness for C4 (amended): concrete create and update runs with a failed
geocode result. -/
theorem c4_amended_witness :
    createListing "Atlantis" "" (.ok ⟨false, none, some "Atlantis", none, none, none,
        some "No results found for the provided address"⟩) =
      ⟨⟨"Atlantis", "", some defaultGeometry⟩, true,
       [.warning ("Listing created but location mapping failed: " ++
                  jsShowOpt (some "No results found for the provided address") ++
                  ". Please update the address for accurate location display.")]⟩
  ∧ updateListing ⟨"Atlantis", "", some ⟨"Point", some (1, 2)⟩⟩ "Atlantis"
        (.ok ⟨false, none, some "Atlantis", none, none, none,
          some "No results found for the provided address"⟩) =
      ⟨⟨"Atlantis", "", some ⟨"Point", some (1, 2)⟩⟩, true,
       [.warning ("Listing updated but location mapping failed: " ++
                  jsShowOpt (some "No results found for the provided address")),
        .success "Listing Updated Successfully!"]⟩
  ∧ (updateListing ⟨"Atlantis", "", none⟩ "Atlantis"
        (.ok ⟨false, none, some "Atlantis", none, none, none,
          some "No results found for the provided address"⟩)).listing.geometry =
      some defaultGeometry :=
  ⟨c4_amended.1 "Atlantis" "" _ rfl,
   c4_amended.2.1 ⟨"Atlantis", "", some ⟨"Point", some (1, 2)⟩⟩ "Atlantis" _
     ⟨"Point", some (1, 2)⟩ (1, 2) (by decide) rfl rfl rfl,
   c4_amended.2.2 ⟨"Atlantis", "", none⟩ "Atlantis" _ (by decide) rfl (Or.inl rfl)⟩

/-- Claim C5 (code bug): `fetchSuggestions` on an HTTP 429 first response is
meant to retry (`// Rate limited, retry after delay`), but the re-invocation
`this.fetchSuggestions(query, attempt + 1)` runs while `isLoading` is still
`true`, so it returns at the entry guard without issuing a request: the
scripted success response for the retry is never consumed, the suggestions
stay empty, and the dropdown is left on the loading row (`isLoading` does end
up `false` via the `finally` block). -/
theorem c5_retry_suppressed :
    fetchSuggestions acInit "Mum" 1
        [.status 429,
         .ok ⟨true, some [⟨some "Mumbai, India", some (mkRat 7288 100, mkRat 1907 100),
                           "India", "Mumbai", ""⟩], none⟩] =
      ⟨[], -1, false, .loading⟩
  ∧ ACDisplay.loading ≠
      .showing [⟨some "Mumbai, India", some (mkRat 7288 100, mkRat 1907 100),
                 "India", "Mumbai", ""⟩] :=
  ⟨by decide, by decide⟩

/-- Counterexample for C6: on an empty result set, the service synthesizes the
label by plain interpolation, not by rounding to four decimal places. -/
theorem c6_counterexample :
    reverseGeocode (.num (mkRat 1 2)) (.num (mkRat 1 2)) (.ok (.results [])) =
      .ok ⟨false, some "0.5, 0.5", none, none, none,
           some "No address found for the provided coordinates"⟩
  ∧ "0.5, 0.5" ≠ toFixed 4 (mkRat 1 2) ++ ", " ++ toFixed 4 (mkRat 1 2) :=
  ⟨rfl, by decide⟩

/-- Claim C6 (corrected): on an in-range point with an empty provider result
set, `GeocodingService.reverseGeocode` returns `success = false` with the
unrounded interpolated label `lat, lng`; the label rounded to four decimal
places exists only in the client-side `ListingMap.reverseGeocode` fallback,
which prefixes it with `Location: `. -/
theorem c6_amended (la ln : Rat) (hla : la ≠ 0) (hln : ln ≠ 0)
    (key : String) (hk : key ≠ "") :
    reverseGeocode (.num la) (.num ln) (.ok (.results [])) =
      .ok ⟨false, some (coordLabel la ln), none, none, none,
           some "No address found for the provided coordinates"⟩
  ∧ mapReverseGeocode key la ln 1 [.ok (.results [])] =
      some ("Location: " ++ toFixed 4 la ++ ", " ++ toFixed 4 ln) := by
  constructor
  · simp [reverseGeocode, reverseGeocodeTry, hla, hln]
  · simp [mapReverseGeocode, hk]

/-- Witness for C6 (amended): evaluated at `(0.5, 0.5)` with a present API
key. -/
theorem c6_amended_witness :
    reverseGeocode (.num (mkRat 1 2)) (.num (mkRat 1 2)) (.ok (.results [])) =
      .ok ⟨false, some (coordLabel (mkRat 1 2) (mkRat 1 2)), none, none, none,
           some "No address found for the provided coordinates"⟩
  ∧ mapReverseGeocode "apikey" (mkRat 1 2) (mkRat 1 2) 1 [.ok (.results [])] =
      some ("Location: " ++ toFixed 4 (mkRat 1 2) ++ ", " ++ toFixed 4 (mkRat 1 2)) :=
  c6_amended (mkRat 1 2) (mkRat 1 2) (by decide) (by decide) "apikey" (by decide)

/-- Counterexample for C1: query A is issued (first `debounceFire`), query B
is issued before As response arrives (second `debounceFire`, dropped by the
`isLoading` guard), then As response arrives — and As suggestions are stored
and displayed. There is no generation counter and the stale response is not
discarded. -/
theorem c1_counterexample :
    acRun sessInit
        [.debounceFire "221B Baker",
         .debounceFire "221B Baker Street",
         .respond (.ok ⟨true,
           some [⟨some "221B Baker Rd, Othertown", some (mkRat 1 2, mkRat 3 4),
                  "Otherland", "Othertown", ""⟩], none⟩)] =
      ⟨⟨[⟨some "221B Baker Rd, Othertown", some (mkRat 1 2, mkRat 3 4),
          "Otherland", "Othertown", ""⟩], -1, false,
        .showing [⟨some "221B Baker Rd, Othertown", some (mkRat 1 2, mkRat 3 4),
                   "Otherland", "Othertown", ""⟩]⟩, none⟩ := by
  decide

/-- Claim C1 (corrected): the session has no generation counter. Concurrency
is handled by the `isLoading` flag alone: a query issued while a request is
in flight is silently dropped, and when the in-flight response arrives its
suggestions are stored and displayed unconditionally. Hence after issuing A,
then B before As response, then receiving As successful response, As
suggestions are displayed (and B was never fetched). -/
theorem c1_amended (qA qB : String) (body : FetchBody) (l : List Suggestion)
    (hs : body.success = true) (hl : body.suggestions = some l) (hne : l ≠ []) :
    acRun sessInit [.debounceFire qA, .debounceFire qB, .respond (.ok body)] =
      ⟨⟨l, -1, false, .showing l⟩, none⟩ := by
  simp [acRun, acStep, sessInit, acInit, displaySuggestions, hs, hl, hne]

/-- Witness for C1 (amended): a concrete stale-response trace. -/
theorem c1_amended_witness :
    acRun sessInit
        [.debounceFire "del", .debounceFire "delhi",
         .respond (.ok ⟨true,
           some [⟨some "Delhi, India", some (mkRat 7721 100, mkRat 2861 100),
                  "India", "Delhi", ""⟩], none⟩)] =
      ⟨⟨[⟨some "Delhi, India", some (mkRat 7721 100, mkRat 2861 100),
          "India", "Delhi", ""⟩], -1, false,
        .showing [⟨some "Delhi, India", some (mkRat 7721 100, mkRat 2861 100),
                   "India", "Delhi", ""⟩]⟩, none⟩ :=
  c1_amended "del" "delhi" _ _ rfl rfl (by decide)

/-- Counterexample for C7: a non-empty, user-entered latitude field (`7`) is
overwritten by `selectSuggestion`, because the coordinate fields are written
unconditionally whenever the suggestion carries coordinates. -/
theorem c7_counterexample :
    (⟨"", some "", some "7", some ""⟩ : FormFields).latitude = some "7"
  ∧ selectSuggestion ⟨"", some "", some "7", some ""⟩
        [⟨some "X Road", some (77, 28), "IN", "", ""⟩] 0 false =
      ⟨"X Road", some "IN", some "28", some "77"⟩
  ∧ some "28" ≠ some "7" :=
  ⟨rfl, rfl, by decide⟩

/-- `updateRelatedFields` never changes the location input value. -/
theorem urf_locationInput (f : FormFields) (s : Suggestion) :
    (updateRelatedFields f s).locationInput = f.locationInput := by
  rcases f with ⟨fl, fc, flat, flng⟩
  rcases s with ⟨sa, sc, scountry, scity, sstate⟩
  rcases sc with _ | ⟨lng, lat⟩ <;> rcases fc with _ | v <;>
    simp only [updateRelatedFields] <;> (try split_ifs) <;> rfl

/-- `updateRelatedFields` is idempotent for a fixed suggestion. -/
theorem urf_idem (f : FormFields) (s : Suggestion) :
    updateRelatedFields (updateRelatedFields f s) s = updateRelatedFields f s := by
  rcases f with ⟨fl, fc, flat, flng⟩
  rcases s with ⟨sa, sc, scountry, scity, sstate⟩
  rcases sc with _ | ⟨lng, lat⟩ <;> rcases fc with _ | v <;>
    rcases flat with _ | x <;> rcases flng with _ | y <;>
    simp only [updateRelatedFields] <;> (try split_ifs) <;> (try simp_all) <;>
    (try split_ifs) <;> simp_all

/-- After a selection pipeline the location input always equals the value the
selection wrote (`updateMapLocation` can only rewrite it to the same address
string). -/
theorem pipeline_locationInput (f : FormFields) (s : Suggestion) (mp : Bool) :
    (updateMapLocation (updateRelatedFields { f with locationInput := jsValStr s.address } s)
        s mp).locationInput = jsValStr s.address := by
  rcases f with ⟨fl, fc, flat, flng⟩
  rcases s with ⟨sa, sc, scountry, scity, sstate⟩
  rcases mp with _ | _ <;> rcases sc with _ | ⟨lng, lat⟩ <;> rcases sa with _ | a <;>
    simp only [updateMapLocation, updateLocationFields, jsValStr, Bool.false_eq_true,
      if_false, if_true] <;>
    (try split_ifs) <;>
    simp_all [urf_locationInput, jsValStr]

set_option maxHeartbeats 1600000 in
/-- One round of `updateRelatedFields` plus `updateMapLocation` is idempotent
for a fixed suggestion. -/
theorem uml_urf_idem (f : FormFields) (s : Suggestion) (mp : Bool) :
    updateMapLocation (updateRelatedFields
        (updateMapLocation (updateRelatedFields f s) s mp) s) s mp =
      updateMapLocation (updateRelatedFields f s) s mp := by
  rcases mp with _ | _
  · simp only [updateMapLocation, Bool.false_eq_true, if_false]
    exact urf_idem f s
  · rcases hsc : s.coordinates with _ | ⟨lng, lat⟩
    · simp only [updateMapLocation, if_true, hsc]
      exact urf_idem f s
    · by_cases hrange : -90 ≤ lat ∧ lat ≤ 90 ∧ -180 ≤ lng ∧ lng ≤ 180
      · rcases s with ⟨sa, sc, scountry, scity, sstate⟩
        simp only at hsc
        subst hsc
        rcases f with ⟨fl, fc, flat, flng⟩
        rcases fc with _ | v <;> rcases flat with _ | x <;> rcases flng with _ | y <;>
          rcases sa with _ | a <;>
          simp only [updateMapLocation, updateRelatedFields, updateLocationFields,
            jsValStr, if_true, hrange] <;>
          (try split_ifs) <;> (try simp_all) <;> (try split_ifs) <;> simp_all
      · simp only [updateMapLocation, if_true, hsc, if_neg hrange]
        exact urf_idem f s

/-- The full `selectSuggestion` pipeline (input write, related-field update,
map update) applied twice equals one application. -/
theorem pipeline_idem (s : Suggestion) (f : FormFields) (mp : Bool) :
    updateMapLocation (updateRelatedFields
      { updateMapLocation (updateRelatedFields { f with locationInput := jsValStr s.address } s) s mp
        with locationInput := jsValStr s.address } s) s mp =
    updateMapLocation (updateRelatedFields { f with locationInput := jsValStr s.address } s) s mp := by
  have h1 := pipeline_locationInput f s mp
  set g := updateMapLocation
    (updateRelatedFields { f with locationInput := jsValStr s.address } s) s mp with hg
  rw [← h1]
  show updateMapLocation (updateRelatedFields g s) s mp = g
  rw [hg]
  exact uml_urf_idem { f with locationInput := jsValStr s.address } s mp

/-- Claim C7 (corrected): of the dependent fields, only the country field is
populated only-if-empty; the latitude/longitude fields are overwritten
unconditionally whenever the selected suggestion carries coordinates, so a
user-entered coordinate value is replaced. Selecting the same suggestion
twice still yields the same field values both times (selection is
idempotent). -/
theorem c7_amended :
    (∀ (f : FormFields) (s : Suggestion) (v : String),
        f.country = some v → v ≠ "" → (updateRelatedFields f s).country = some v)
  ∧ (∀ (f : FormFields) (s : Suggestion) (lng lat : Rat),
        s.coordinates = some (lng, lat) →
          (updateRelatedFields f s).latitude = f.latitude.map (fun _ => decimalString lat) ∧
          (updateRelatedFields f s).longitude = f.longitude.map (fun _ => decimalString lng))
  ∧ (∀ (f : FormFields) (sl : List Suggestion) (i : Nat) (mp : Bool),
        selectSuggestion (selectSuggestion f sl i mp) sl i mp = selectSuggestion f sl i mp) := by
  refine ⟨?_, ?_, ?_⟩
  · intro f s v hv hne
    rcases s with ⟨sa, sc, scountry, scity, sstate⟩
    rcases f with ⟨fl, fc, flat, flng⟩
    simp only at hv
    subst hv
    simp only [updateRelatedFields]
    rcases sc with _ | ⟨lng, lat⟩ <;> simp [hne]
  · intro f s lng lat hc
    rcases s with ⟨sa, sc, scountry, scity, sstate⟩
    simp only at hc
    subst hc
    rcases f with ⟨fl, fc, flat, flng⟩
    rcases fc with _ | v <;> rcases flat with _ | x <;> rcases flng with _ | y <;>
      simp only [updateRelatedFields] <;> (try split_ifs) <;> simp
  · intro f sl i mp
    rcases hsl : sl[i]? with _ | s
    · simp [selectSuggestion, hsl]
    · simp only [selectSuggestion, hsl]
      exact pipeline_idem s f mp

/-- Witness for C7 (amended): concrete instantiations — a non-empty country is
preserved, coordinate fields are overwritten, and a double selection equals a
single one. -/
theorem c7_amended_witness :
    (updateRelatedFields ⟨"", some "France", some "1", some "2"⟩
        ⟨some "X", some (3, 4), "IN", "", ""⟩).country = some "France"
  ∧ ((updateRelatedFields ⟨"", some "France", some "1", some "2"⟩
        ⟨some "X", some (3, 4), "IN", "", ""⟩).latitude =
      (some "1").map (fun _ => decimalString 4) ∧
     (updateRelatedFields ⟨"", some "France", some "1", some "2"⟩
        ⟨some "X", some (3, 4), "IN", "", ""⟩).longitude =
      (some "2").map (fun _ => decimalString 3))
  ∧ selectSuggestion (selectSuggestion ⟨"", some "", some "1", some "2"⟩
        [⟨some "X", some (3, 4), "IN", "", ""⟩] 0 true)
        [⟨some "X", some (3, 4), "IN", "", ""⟩] 0 true =
      selectSuggestion ⟨"", some "", some "1", some "2"⟩
        [⟨some "X", some (3, 4), "IN", "", ""⟩] 0 true :=
  ⟨c7_amended.1 ⟨"", some "France", some "1", some "2"⟩ _ "France" rfl (by decide),
   c7_amended.2.1 ⟨"", some "France", some "1", some "2"⟩ _ 3 4 rfl,
   c7_amended.2.2 ⟨"", some "", some "1", some "2"⟩ _ 0 true⟩

/-- The repository's autocomplete service returns the empty suggestions list
on every failure result. -/
theorem autocomplete_failure_empty (q : JsStrArg) (opts : AutoOptions)
    (o : UpstreamOutcome) (r : AutoResult)
    (h : getAutocompleteSuggestions q opts o = .ok r) (hf : r.success = false) :
    r.suggestions = [] := by
  rcases q with s | _
  · rw [getAutocompleteSuggestions.eq_def] at h
    dsimp only at h
    split at h
    · injection h with h
      subst h
      rfl
    · rcases o with d | st | ms | m
      · rcases d with rs | _ | _
        · dsimp only at h
          injection h with h
          subst h
          simp at hf
        · dsimp only at h
          injection h with h
          subst h
          rfl
        · dsimp only at h
          injection h with h
          subst h
          rfl
      · dsimp only at h
        injection h with h
        subst h
        rfl
      · dsimp only at h
        injection h with h
        subst h
        rfl
      · dsimp only at h
        injection h with h
        subst h
        rfl
  · rw [getAutocompleteSuggestions.eq_def] at h
    dsimp only at h
    injection h with h
    subst h
    rfl

/-- Inversion for `Except.map` returning `ok`. -/
theorem except_map_ok {e a b : Type} (f : a → b) (x : Except e a) (v : b)
    (h : Except.map f x = .ok v) : ∃ w, x = .ok w ∧ v = f w := by
  rcases x with err | w
  · simp [Except.map] at h
  · refine ⟨w, rfl, ?_⟩
    simp [Except.map] at h
    exact h.symm

/-- Claim C10 (confirmed): every HTTP response of the address-suggestions
endpoint carries a body in which `suggestions` is an array, for every
behaviour of the geocoding service — including a rejected promise, a
non-object result, and malformed field values — and it is the empty array on
every failure path: every non-200 response, every non-array service
`suggestions` value. Composed with the repository's own geocoding service,
`success` is a boolean, `error` is a string or null, and a 200 response
reporting `success = false` also carries the empty array. -/
theorem c10_response_shape :
    (∀ (query country : QueryParam) (mapToken : Option String)
        (service : JsStrArg → AutoOptions → Except JsError ServiceValue),
        (∃ xs, (getAddressSuggestions query country mapToken service).body.suggestions =
          .jarr xs)
      ∧ ((getAddressSuggestions query country mapToken service).status ≠ 200 →
          (getAddressSuggestions query country mapToken service).body.suggestions = .jarr [])
      ∧ (∀ s sug err,
          (∀ q opts, service q opts = .ok (.obj s sug err)) → isArray sug = false →
            (getAddressSuggestions query country mapToken service).body.suggestions = .jarr []))
  ∧ (∀ (query country : QueryParam) (mapToken : Option String) (o : UpstreamOutcome),
        (∃ b, (getAddressSuggestions query country mapToken (liveService o)).body.success =
          .jbool b)
      ∧ ((getAddressSuggestions query country mapToken (liveService o)).body.error = .jnull ∨
          ∃ s, (getAddressSuggestions query country mapToken (liveService o)).body.error =
            .jstr s)
      ∧ ((getAddressSuggestions query country mapToken (liveService o)).body.success =
            .jbool false →
          (getAddressSuggestions query country mapToken (liveService o)).body.suggestions =
            .jarr [])) := by
  constructor
  · intro query country mapToken service
    rcases query with _ | q | _
    · exact ⟨⟨[], rfl⟩, fun _ => rfl, fun s sug err _ _ => rfl⟩
    · rw [getAddressSuggestions.eq_def]
      dsimp only
      split
      · exact ⟨⟨[], rfl⟩, fun _ => rfl, fun s sug err _ _ => rfl⟩
      · split
        · exact ⟨⟨[], rfl⟩, fun _ => rfl, fun s sug err _ _ => rfl⟩
        · split
          · exact ⟨⟨[], rfl⟩, fun _ => rfl, fun s sug err _ _ => rfl⟩
          · split
            · exact ⟨⟨[], rfl⟩, fun _ => rfl, fun s sug err _ _ => rfl⟩
            · rcases hsv : service (.str (jsTrim q))
                  ⟨some 5, match country with
                           | .str c => if c = "" then none else some c.toLower
                           | _ => none⟩ with e | sv
              · simp only [hsv]
                refine ⟨⟨[], rfl⟩, fun _ => rfl, ?_⟩
                intro s sug err hall hna
                rw [hall] at hsv
                simp at hsv
              · rcases sv with _ | ⟨s0, sug0, err0⟩
                · simp only [hsv]
                  refine ⟨⟨[], rfl⟩, fun _ => rfl, ?_⟩
                  intro s sug err hall hna
                  rw [hall] at hsv
                  simp at hsv
                · simp only [hsv]
                  refine ⟨?_, ?_, ?_⟩
                  · rcases sug0 with _ | _ | b | qq | ss | xs | _ <;> exact ⟨_, rfl⟩
                  · intro hne
                    exact absurd rfl hne
                  · intro s sug err hall hna
                    rw [hall] at hsv
                    injection hsv with hsv
                    injection hsv with h1 h2 h3
                    subst h2
                    simp [hna]
    · exact ⟨⟨[], rfl⟩, fun _ => rfl, fun s sug err _ _ => rfl⟩
  · intro query country mapToken o
    rcases query with _ | q | _
    · exact ⟨⟨false, rfl⟩, Or.inr ⟨_, rfl⟩, fun _ => rfl⟩
    · rw [getAddressSuggestions.eq_def]
      dsimp only
      split
      · exact ⟨⟨false, rfl⟩, Or.inr ⟨_, rfl⟩, fun _ => rfl⟩
      · split
        · exact ⟨⟨false, rfl⟩, Or.inr ⟨_, rfl⟩, fun _ => rfl⟩
        · split
          · exact ⟨⟨false, rfl⟩, Or.inr ⟨_, rfl⟩, fun _ => rfl⟩
          · split
            · exact ⟨⟨false, rfl⟩, Or.inr ⟨_, rfl⟩, fun _ => rfl⟩
            · rcases hsv : liveService o (.str (jsTrim q))
                  ⟨some 5, match country with
                           | .str c => if c = "" then none else some c.toLower
                           | _ => none⟩ with e | sv
              · simp only [hsv]
                exact ⟨⟨false, rfl⟩, Or.inr ⟨_, rfl⟩, fun _ => rfl⟩
              · unfold liveService at hsv
                obtain ⟨r, hg, rfl⟩ := except_map_ok _ _ _ hsv
                have hb : r.success = false → r.suggestions = [] := fun hf =>
                  autocomplete_failure_empty _ _ _ _ hg hf
                rcases r with ⟨rs, rsug, rerr⟩
                dsimp only [encodeAutoResult]
                refine ⟨?_, ?_, ?_⟩
                · rcases rs with _ | _
                  · exact ⟨false, rfl⟩
                  · exact ⟨true, rfl⟩
                · rcases rerr with _ | s
                  · exact Or.inl rfl
                  · by_cases hs : s = ""
                    · subst hs
                      exact Or.inl rfl
                    · right
                      exact ⟨s, by simp [jsOrRaw, jsTruthy, hs]⟩
                · intro hsucc
                  rcases rs with _ | _
                  · have hempty : rsug = [] := hb rfl
                    subst hempty
                    rfl
                  · simp [jsOrRaw, jsTruthy] at hsucc
    · exact ⟨⟨false, rfl⟩, Or.inr ⟨_, rfl⟩, fun _ => rfl⟩

/-- Witness for C10: the suggestions field is the empty array for a service
returning a malformed (non-array) suggestions value, on a 400 validation
response, and on a 200 response of the real service reporting a failure. -/
theorem c10_response_shape_witness :
    (getAddressSuggestions (.str "del") .missing (some "tok")
        (fun _ _ => .ok (.obj (.jbool true) .jobj .jnull))).body.suggestions = .jarr []
  ∧ (getAddressSuggestions .missing .missing (some "tok")
        (fun _ _ => .ok (.obj (.jbool true) (.jarr []) .jnull))).body.suggestions = .jarr []
  ∧ (getAddressSuggestions (.str "de") .missing (some "tok")
        (liveService (.ok .noResults))).body.suggestions = .jarr [] :=
  ⟨(c10_response_shape.1 (.str "del") .missing (some "tok")
      (fun _ _ => .ok (.obj (.jbool true) .jobj .jnull))).2.2
      (.jbool true) .jobj .jnull (fun _ _ => rfl) rfl,
   (c10_response_shape.1 .missing .missing (some "tok")
      (fun _ _ => .ok (.obj (.jbool true) (.jarr []) .jnull))).2.1 (by decide),
   (c10_response_shape.2 (.str "de") .missing (some "tok") (.ok .noResults)).2.2 (by decide)⟩
